import Mathlib

/-!
Verification of the GameVariable benchmark-automation scripts.

Two Python scripts are embedded shallowly:

* `scripts/compare_benchmarks.py` — the comparator: joins two benchmark
  result sets on identity, computes the relative change of the mean, and
  classifies each row (namespace `CompareBenchmarks`).
* `scripts/daily_benchmark_bot.py` — the run gate: decides from the stored
  revision marker and the repository history whether to run the benchmark
  suite, and persists a new marker on success (namespace `DailyBenchmarkBot`).

Modelling conventions: Python floats are modelled as rationals (`ℚ`);
`None` is `Option.none`; Python truthiness of an optional float (`None` and
`0.0` are falsy) is the `isTruthy` test; a dict built from a list is an
association list with last-seen-wins lookup; subprocess results are passed
in explicitly (`some stdout` for success, `none` for a non-zero exit that
raises `CalledProcessError`); `f`-string fixed-point formatting is modelled
by round-half-to-even rendering on the exact rational value.
-/

namespace CompareBenchmarks

/-- A benchmark entry is modelled by its optional mean duration in
nanoseconds: `some m` when the entry carries a `Statistics.Mean` field,
`none` when the `Statistics` object is absent (line 65-66 of
`compare_benchmarks.py` produces `None` in that case). -/
abbrev Entry := Option ℚ

/-- A parsed results document: the dict produced by `load_benchmarks`,
keyed by identity. -/
abbrev ResultSet := List (String × Entry)

/-- Python truthiness of an optional float: `None` and `0.0` are falsy,
every other value is truthy. Used by the `if old_mean and new_mean:`
chain at lines 74-92. -/
def isTruthy : Option ℚ → Bool
  | none => false
  | some x => x != 0

/-- Dict lookup, `old_data.get(key)`. Python dict construction is
last-seen-wins, hence the search from the back. -/
def lookupKey (rs : ResultSet) (k : String) : Option Entry :=
  (rs.reverse.find? (fun e => e.1 == k)).map Prod.snd

/-- `old_mean = old_b['Statistics']['Mean'] if old_b and 'Statistics' in old_b
else None` (lines 65-66): `none` both when the key is absent and when the
entry has no mean. -/
def meanAt (rs : ResultSet) (k : String) : Option ℚ :=
  (lookupKey rs k).join

/-- Round a rational to the nearest integer, ties to even — the rounding
used by Python fixed-point float formatting. -/
def roundHalfEven (q : ℚ) : ℤ :=
  let f := ⌊q⌋
  let r := q - f
  if r < 1/2 then f
  else if 1/2 < r then f + 1
  else if f % 2 = 0 then f else f + 1

/-- Two-digit zero padding for the fractional part. -/
def pad2 (n : ℕ) : String :=
  if n < 10 then "0" ++ toString n else toString n

/-- Python `f"{x:.2f}"` on a non-negative value: two fractional digits,
round half to even. -/
def fmt2 (q : ℚ) : String :=
  let m := (roundHalfEven (q * 100)).toNat
  toString (m / 100) ++ "." ++ pad2 (m % 100)

/-- Python `f"{x:.1f}"` on a non-negative value: one fractional digit. -/
def fmt1 (q : ℚ) : String :=
  let m := (roundHalfEven (q * 10)).toNat
  toString (m / 10) ++ "." ++ toString (m % 10)

/-- Python `f"{x:+.1f}"`: explicit sign, one fractional digit. -/
def fmtSigned1 (q : ℚ) : String :=
  (if q < 0 then "-" else "+") ++ fmt1 |q|

/-- `format_time` (lines 23-31): auto-scaled unit with two fractional
digits; `ns` below `1000`, `us` below `1_000_000`, `ms` below
`1_000_000_000`, seconds otherwise. -/
def format_time (ns : ℚ) : String :=
  if ns < 1000 then fmt2 ns ++ " ns"
  else if ns < 1000000 then fmt2 (ns / 1000) ++ " us"
  else if ns < 1000000000 then fmt2 (ns / 1000000) ++ " ms"
  else fmt2 (ns / 1000000000) ++ " s"

/-- Split a character list at every occurrence of `c` (Python
`str.split(c)` semantics: always at least one piece). -/
def splitChar (c : Char) : List Char → List (List Char)
  | [] => [[]]
  | x :: xs =>
    let r := splitChar c xs
    if x = c then [] :: r
    else
      match r with
      | [] => [[x]]
      | y :: ys => (x :: y) :: ys

/-- Python `s.split(c)` for a single-character separator. -/
def splitOnChar (c : Char) (s : String) : List String :=
  (splitChar c s.data).map List.asString

/-- `shorten_name` (lines 33-40): keep the last dot-separated segment when
there are more than two segments. -/
def shorten_name (name : String) : String :=
  let parts := splitOnChar '.' name
  if 2 < parts.length then parts.getLastD name else name

/-- `os.path.basename` for POSIX paths as used at line 51. -/
def basename (p : String) : String :=
  (splitOnChar '/' p).getLastD p

/-- The per-row computation of `compare` (lines 71-92): the optional
relative change, the rendered diff cell, and the status cell. -/
structure RowCalc where
  percent : Option ℚ
  diffStr : String
  status : String
deriving DecidableEq

/-- Lines 71-92 of `compare_benchmarks.py`, for one key, given the two
optional means. Note the guards use Python truthiness: a mean of exactly
`0` behaves like an absent mean here. -/
def compareRow (old_mean new_mean : Option ℚ) : RowCalc :=
  if isTruthy old_mean && isTruthy new_mean then
    let om := old_mean.getD 0
    let nm := new_mean.getD 0
    if om = 0 then ⟨some 0, "0%", "⚪ Same"⟩
    else
      let p := (nm - om) / om * 100
      ⟨some p, fmtSigned1 p ++ "%",
        if 5 < p then "🔴 Slower" else if p < -5 then "🟢 Faster" else "⚪ Same"⟩
  else if isTruthy old_mean && !isTruthy new_mean then ⟨none, "", "❌ Removed"⟩
  else if !isTruthy old_mean && isTruthy new_mean then ⟨none, "", "✨ New"⟩
  else ⟨none, "", ""⟩

/-- The row computation for a key of the joined sets. -/
def rowCalcFor (old_data new_data : ResultSet) (k : String) : RowCalc :=
  compareRow (meanAt old_data k) (meanAt new_data k)

/-- `format_time(old_mean) if old_mean is not None else "-"` (lines 68-69):
this test is `is not None`, not truthiness, so a zero mean is formatted. -/
def meanStr : Option ℚ → String
  | some m => format_time m
  | none => "-"

/-- One rendered table row (line 94). -/
def rowLine (old_data new_data : ResultSet) (k : String) : String :=
  let rc := rowCalcFor old_data new_data k
  "| " ++ shorten_name k ++ " | " ++ meanStr (meanAt old_data k) ++ " | "
    ++ meanStr (meanAt new_data k) ++ " | " ++ rc.diffStr ++ " | "
    ++ rc.status ++ " |"

/-- The distinct identities of the union of the two key sets (line 56). -/
def allKeys (old_data new_data : ResultSet) : List String :=
  (old_data.map Prod.fst ++ new_data.map Prod.fst).dedup

/-- Ascending insertion into a sorted list of strings. -/
def insertStr (x : String) : List String → List String
  | [] => [x]
  | y :: ys => if x ≤ y then x :: y :: ys else y :: insertStr x ys

/-- Ascending sort of strings, Python `sorted` on the key set (line 57). -/
def sortStrs : List String → List String
  | [] => []
  | x :: xs => insertStr x (sortStrs xs)

/-- `sorted_keys = sorted(list(all_keys))` (lines 56-57). -/
def sortedKeys (old_data new_data : ResultSet) : List String :=
  sortStrs (allKeys old_data new_data)

/-- `compare` (lines 42-101), from the two parsed result sets to the lines
of the report. When both sets are empty the function returns at line 48
without writing a report, modelled by `none`; otherwise the report is the
header lines, one row per sorted key, and a trailing blank line. -/
def compare (new_file : String) (old_data new_data : ResultSet) :
    Option (List String) :=
  if old_data.isEmpty && new_data.isEmpty then none
  else
    some (("### Comparison: " ++ basename new_file) :: "" ::
      "| Benchmark | Old | New | Diff | Status |" :: "|---|---|---|---|---|" ::
      ((sortedKeys old_data new_data).map (rowLine old_data new_data) ++ [""]))

end CompareBenchmarks

namespace DailyBenchmarkBot

/-- The gate's decision (`should_run` at lines 82-97 of
`daily_benchmark_bot.py`). -/
inductive Decision where
  | ShouldRun
  | ShouldSkip
deriving DecidableEq

/-- Observable side effects of one invocation of `main`, in order. -/
inductive Event where
  | RunnerInvoked
  | MarkerWritten (rev : String)
deriving DecidableEq

/-- The inputs of one invocation: the current revision (`git rev-parse
HEAD`), the marker file's stripped contents when it exists, the stdout of
the `git diff --name-only` call (`none` when that subprocess raises
`CalledProcessError`), and the benchmark runner's exit status. -/
structure GitEnv where
  currentCommit : String
  markerFile : Option String
  diffResult : Option String
  runnerExit : ℕ
deriving DecidableEq

/-- `check_for_changes` (lines 36-51): on a successful diff, `True` iff
the output is nonempty; on `CalledProcessError` the handler assumes
changes and warns. Returns (result, warned). -/
def check_for_changes (diffResult : Option String) : Bool × Bool :=
  match diffResult with
  | some out => (out.length > 0, false)
  | none => (true, true)

/-- The `should_run` chain of `main` (lines 82-97): the marker being
`None` or empty is falsy; an equal marker skips; otherwise
`check_for_changes` decides. Returns (decision, warned). -/
def gateDecision (last_commit : Option String) (current_commit : String)
    (diffResult : Option String) : Decision × Bool :=
  match last_commit with
  | none => (.ShouldRun, false)
  | some lc =>
    if lc = "" then (.ShouldRun, false)
    else if lc = current_commit then (.ShouldSkip, false)
    else
      let cfc := check_for_changes diffResult
      (if cfc.1 then .ShouldRun else .ShouldSkip, cfc.2)

/-- Result of one invocation of `main`: the ordered side effects, the
process exit status (`sys.exit(1)` at line 65 when the runner fails), the
marker file after the invocation, and whether a warning was printed. -/
structure MainResult where
  events : List Event
  exitCode : ℕ
  markerAfter : Option String
  warned : Bool
deriving DecidableEq

/-- `main` (lines 74-105): decide, then on `ShouldRun` invoke the runner
(`run_benchmarks`, lines 53-67) and, only when it exits zero, overwrite
the marker with the current revision (`update_last_run_commit`,
line 103). -/
def mainRun (env : GitEnv) : MainResult :=
  let d := gateDecision env.markerFile env.currentCommit env.diffResult
  match d.1 with
  | .ShouldSkip => ⟨[], 0, env.markerFile, d.2⟩
  | .ShouldRun =>
    if env.runnerExit = 0 then
      ⟨[.RunnerInvoked, .MarkerWritten env.currentCommit], 0,
        some env.currentCommit, d.2⟩
    else ⟨[.RunnerInvoked], 1, env.markerFile, d.2⟩

end DailyBenchmarkBot

namespace CompareBenchmarks

/-- Evaluation helper: `fmt2` at a value whose scaled rounding is known. -/
theorem fmt2_eq (q : ℚ) (n : ℕ) (h : roundHalfEven (q * 100) = (n : ℤ)) :
    fmt2 q = toString (n / 100) ++ "." ++ pad2 (n % 100) := by
  rw [fmt2, h]
  simp

/-- Insertion preserves length. -/
theorem insertStr_length (x : String) (l : List String) :
    (insertStr x l).length = l.length + 1 := by
  induction l with
  | nil => rfl
  | cons y ys ih =>
    rw [insertStr]
    split
    · rfl
    · simp [List.length_cons, ih]

/-- Sorting preserves length. -/
theorem sortStrs_length (l : List String) :
    (sortStrs l).length = l.length := by
  induction l with
  | nil => rfl
  | cons x xs ih =>
    rw [sortStrs, insertStr_length, ih, List.length_cons]

/-- C1: the claim says a baseline mean of exactly 0 yields relative change
0 percent and status Unchanged regardless of the current mean. The code
disagrees: with baseline mean 0 and current mean 5 the row is rendered
with status New and an empty diff cell, because the truthiness test at
line 74 (`if old_mean and new_mean:`) is already false when the baseline
mean is 0, so the zero-baseline guard at line 75 is unreachable dead
code. Division by zero is indeed never attempted. -/
theorem zero_baseline_row_rendered_new :
    compareRow (some 0) (some 5) = ⟨none, "", "✨ New"⟩
      ∧ compareRow (some 0) (some 0) = ⟨none, "", ""⟩ := by
  constructor <;> norm_num [compareRow, isTruthy]

/-- C2 counterexample: with baseline mean 100 and a recorded current mean
of 0, the claimed formula would give -100 percent, but the code records
no percent at all and renders the row Removed (a current mean of 0 is
falsy at line 74). -/
theorem relative_change_missing_at_zero_current :
    compareRow (some 100) (some 0) = ⟨none, "", "❌ Removed"⟩
      ∧ (compareRow (some 100) (some 0)).percent ≠
          some (((0 : ℚ) - 100) / 100 * 100) := by
  constructor
  · norm_num [compareRow, isTruthy]
  · norm_num [compareRow, isTruthy]
    simp

/-- C2 (amended): for every identity present in both sets whose baseline
mean `m` and current mean are both nonzero, the recorded relative change
is `(current - m) / m * 100`. -/
theorem relative_change_formula (om nm : ℚ) (h1 : om ≠ 0) (h2 : nm ≠ 0) :
    (compareRow (some om) (some nm)).percent =
      some ((nm - om) / om * 100) := by
  simp [compareRow, isTruthy, h1, h2]

/-- C2 witness: baseline 100, current 120 gives +20 percent. -/
theorem relative_change_formula_witness :
    (100 : ℚ) ≠ 0 ∧ (120 : ℚ) ≠ 0 ∧
      (compareRow (some 100) (some 120)).percent =
        some (((120 : ℚ) - 100) / 100 * 100) :=
  ⟨by norm_num, by norm_num,
    relative_change_formula 100 120 (by norm_num) (by norm_num)⟩

/-- C3: for every row with a computed relative change `p`, the status is
Slower exactly when `p > 5`, Faster exactly when `p < -5`, and Same
(rendered for Unchanged) exactly when `-5 ≤ p ≤ 5`; boundary values `5`
and `-5` therefore classify as Same, while `5.01` is Slower and `-5.01`
is Faster (see the witness). -/
theorem status_threshold_classification (om nm p : ℚ)
    (h : (compareRow (some om) (some nm)).percent = some p) :
    ((compareRow (some om) (some nm)).status = "🔴 Slower" ↔ 5 < p)
      ∧ ((compareRow (some om) (some nm)).status = "🟢 Faster" ↔ p < -5)
      ∧ ((compareRow (some om) (some nm)).status = "⚪ Same" ↔
          -5 ≤ p ∧ p ≤ 5) := by
  by_cases hom : om = 0
  · exfalso
    subst hom
    by_cases hnm : nm = 0 <;> simp [compareRow, isTruthy, hnm] at h
  · by_cases hnm : nm = 0
    · exfalso
      subst hnm
      simp [compareRow, isTruthy, hom] at h
    · have hp : (nm - om) / om * 100 = p := by
        simpa [compareRow, isTruthy, hom, hnm] using h
      have hs : (compareRow (some om) (some nm)).status =
          if 5 < p then "🔴 Slower"
          else if p < -5 then "🟢 Faster" else "⚪ Same" := by
        simp [compareRow, isTruthy, hom, hnm, hp]
      rw [hs]
      split_ifs with h1 h2
      · exact ⟨iff_of_true rfl h1,
          iff_of_false (by decide) (by linarith),
          iff_of_false (by decide) (by rintro ⟨-, hb⟩; linarith)⟩
      · exact ⟨iff_of_false (by decide) h1,
          iff_of_true rfl h2,
          iff_of_false (by decide) (by rintro ⟨ha, -⟩; linarith)⟩
      · exact ⟨iff_of_false (by decide) h1,
          iff_of_false (by decide) h2,
          iff_of_true rfl ⟨by linarith, by linarith⟩⟩

/-- C3 witness: a change of +5.01 percent is Slower, -5.01 percent is
Faster, and the boundary values +5 and -5 percent are Same. -/
theorem status_threshold_classification_witness :
    (compareRow (some 10000) (some 10501)).status = "🔴 Slower"
      ∧ (compareRow (some 10000) (some 9499)).status = "🟢 Faster"
      ∧ (compareRow (some 100) (some 105)).status = "⚪ Same"
      ∧ (compareRow (some 100) (some 95)).status = "⚪ Same" := by
  refine ⟨?_, ?_, ?_, ?_⟩
  · exact ((status_threshold_classification 10000 10501 (501/100)
      (by norm_num [compareRow, isTruthy])).1).mpr (by norm_num)
  · norm_num [compareRow, isTruthy]
  · norm_num [compareRow, isTruthy]
  · norm_num [compareRow, isTruthy]

/-- A row whose current side has no truthy mean: Removed when the baseline
mean is truthy, otherwise an empty status; never a percent. -/
theorem compareRow_none_right (x : Option ℚ) :
    compareRow x none =
      if isTruthy x then ⟨none, "", "❌ Removed"⟩ else ⟨none, "", ""⟩ := by
  simp [compareRow, isTruthy]

/-- A row whose baseline side has no truthy mean: New when the current
mean is truthy, otherwise an empty status; never a percent. -/
theorem compareRow_none_left (x : Option ℚ) :
    compareRow none x =
      if isTruthy x then ⟨none, "", "✨ New"⟩ else ⟨none, "", ""⟩ := by
  simp [compareRow, isTruthy]

/-- C4 counterexample: the identity A is present in the baseline set only,
but because its entry records no mean, the row's status cell is empty —
neither Removed nor New, contradicting the claim; the row does carry no
percent. -/
theorem one_sided_key_without_mean_unlabelled :
    (lookupKey [("A", (none : Entry))] "A").isSome = true
      ∧ lookupKey ([] : ResultSet) "A" = none
      ∧ (rowCalcFor [("A", (none : Entry))] [] "A").status ≠ "❌ Removed"
      ∧ (rowCalcFor [("A", (none : Entry))] [] "A").status ≠ "✨ New"
      ∧ rowCalcFor [("A", (none : Entry))] [] "A" = ⟨none, "", ""⟩ := by
  refine ⟨rfl, rfl, ?_, ?_, ?_⟩ <;>
    simp [rowCalcFor, meanAt, lookupKey, compareRow, isTruthy]

/-- C4 (amended): an identity present in exactly one of the two sets
yields a row with no percent and an empty diff cell; its status is
Removed when the baseline-only entry records a nonzero mean, and New
(rendered for Added) when the current-only entry records a nonzero mean.
An entry with no recorded mean, or a zero mean, leaves the status cell
empty instead (see the counterexample). -/
theorem one_sided_key_classification (old_data new_data : ResultSet)
    (k : String) (m : ℚ) :
    (lookupKey new_data k = none →
      (rowCalcFor old_data new_data k).percent = none
        ∧ (rowCalcFor old_data new_data k).diffStr = ""
        ∧ (meanAt old_data k = some m → m ≠ 0 →
            (rowCalcFor old_data new_data k).status = "❌ Removed"))
      ∧ (lookupKey old_data k = none →
        (rowCalcFor old_data new_data k).percent = none
          ∧ (rowCalcFor old_data new_data k).diffStr = ""
          ∧ (meanAt new_data k = some m → m ≠ 0 →
              (rowCalcFor old_data new_data k).status = "✨ New")) := by
  constructor
  · intro h
    have hm : meanAt new_data k = none := by rw [meanAt, h]; rfl
    rw [rowCalcFor, hm, compareRow_none_right]
    refine ⟨?_, ?_, ?_⟩
    · split <;> rfl
    · split <;> rfl
    · intro h1 h2
      have ht : isTruthy (meanAt old_data k) = true := by
        rw [h1]; simp [isTruthy, h2]
      rw [if_pos ht]
  · intro h
    have hm : meanAt old_data k = none := by rw [meanAt, h]; rfl
    rw [rowCalcFor, hm, compareRow_none_left]
    refine ⟨?_, ?_, ?_⟩
    · split <;> rfl
    · split <;> rfl
    · intro h1 h2
      have ht : isTruthy (meanAt new_data k) = true := by
        rw [h1]; simp [isTruthy, h2]
      rw [if_pos ht]

/-- C4 witness: a key only in the baseline with mean 7 is Removed, a key
only in the current set with mean 3 is New, and neither carries a
percent. -/
theorem one_sided_key_classification_witness :
    lookupKey ([] : ResultSet) "A" = none
      ∧ (rowCalcFor [("A", some (7 : ℚ))] [] "A").percent = none
      ∧ (rowCalcFor [("A", some (7 : ℚ))] [] "A").status = "❌ Removed"
      ∧ (rowCalcFor [] [("B", some (3 : ℚ))] "B").status = "✨ New" := by
  have h1 := (one_sided_key_classification [("A", some (7 : ℚ))] [] "A" 7).1 rfl
  have h2 := (one_sided_key_classification [] [("B", some (3 : ℚ))] "B" 3).2 rfl
  exact ⟨rfl, h1.1, h1.2.2 rfl (by norm_num), h2.2.2 rfl (by norm_num)⟩

/-- C10: for an identity present in both documents whose baseline entry
records a nonzero mean while the current entry has no statistics object,
the row is Removed with no percent — row status follows the presence of
mean values, not set membership. -/
theorem both_present_missing_current_mean_removed
    (old_data new_data : ResultSet) (k : String) (m : ℚ)
    (h1 : meanAt old_data k = some m) (h2 : m ≠ 0)
    (_h3 : (lookupKey new_data k).isSome = true)
    (h4 : meanAt new_data k = none) :
    rowCalcFor old_data new_data k = ⟨none, "", "❌ Removed"⟩ := by
  have ht : isTruthy (some m) = true := by simp [isTruthy, h2]
  rw [rowCalcFor, h1, h4, compareRow_none_right, if_pos ht]

/-- C10 witness: identity A is in both documents, with baseline mean 100
and a current entry without statistics; the row is Removed. -/
theorem both_present_missing_current_mean_removed_witness :
    (lookupKey [("A", (none : Entry))] "A").isSome = true
      ∧ rowCalcFor [("A", some (100 : ℚ))] [("A", (none : Entry))] "A" =
          ⟨none, "", "❌ Removed"⟩ :=
  ⟨rfl, both_present_missing_current_mean_removed _ _ "A" 100 rfl
    (by norm_num) rfl rfl⟩

/-- Rounding an integer-valued rational is the identity. -/
theorem roundHalfEven_intCast (n : ℤ) : roundHalfEven ((n : ℚ)) = n := by
  norm_num [roundHalfEven]

/-- Evaluation helper: `fmt2` at a value with integral hundredths. -/
theorem fmt2_natCast (q : ℚ) (n : ℕ) (h : q * 100 = (n : ℚ)) :
    fmt2 q = toString (n / 100) ++ "." ++ pad2 (n % 100) := by
  apply fmt2_eq
  rw [h]
  exact_mod_cast roundHalfEven_intCast (n : ℤ)

/-- 999 nanoseconds render in the ns unit. -/
theorem format_time_999 : format_time (999 : ℚ) = "999.00 ns" := by
  unfold format_time
  rw [if_pos (by norm_num : (999 : ℚ) < 1000),
    fmt2_natCast 999 99900 (by norm_num)]
  decide

/-- 1000 nanoseconds render in the us unit. -/
theorem format_time_1000 : format_time (1000 : ℚ) = "1.00 us" := by
  unfold format_time
  rw [if_neg (by norm_num : ¬(1000 : ℚ) < 1000),
    if_pos (by norm_num : (1000 : ℚ) < 1000000),
    fmt2_natCast ((1000 : ℚ) / 1000) 100 (by norm_num)]
  decide

/-- 1000000 nanoseconds render in the ms unit. -/
theorem format_time_1000000 : format_time (1000000 : ℚ) = "1.00 ms" := by
  unfold format_time
  rw [if_neg (by norm_num : ¬(1000000 : ℚ) < 1000),
    if_neg (by norm_num : ¬(1000000 : ℚ) < 1000000),
    if_pos (by norm_num : (1000000 : ℚ) < 1000000000),
    fmt2_natCast ((1000000 : ℚ) / 1000000) 100 (by norm_num)]
  decide

/-- C5 counterexample: one billion nanoseconds render as "1.00 s", in the
seconds unit of line 31, not in milliseconds as the claim predicts (the
claim would give "1000.00 ms"). -/
theorem format_time_billion_is_seconds :
    format_time (1000000000 : ℚ) = "1.00 s"
      ∧ "1.00 s" ≠ "1000.00 ms" := by
  constructor
  · unfold format_time
    rw [if_neg (by norm_num : ¬(1000000000 : ℚ) < 1000),
      if_neg (by norm_num : ¬(1000000000 : ℚ) < 1000000),
      if_neg (by norm_num : ¬(1000000000 : ℚ) < 1000000000),
      fmt2_natCast ((1000000000 : ℚ) / 1000000000) 100 (by norm_num)]
    decide
  · decide

/-- C5 (amended): for every non-negative duration, the unit is ns below
1000, us below 1000000, and ms below 1000000000; from 1000000000 on the
value renders in seconds (unit s), not ms as the claim states — see the
counterexample. Each branch renders the scaled value with the two-digit
fixed point formatter; in particular 999 renders "999.00 ns", 1000
renders "1.00 us", and 1000000 renders "1.00 ms". -/
theorem format_time_unit_selection (ns : ℚ) (_h : 0 ≤ ns) :
    (ns < 1000 → format_time ns = fmt2 ns ++ " ns")
      ∧ (1000 ≤ ns → ns < 1000000 →
          format_time ns = fmt2 (ns / 1000) ++ " us")
      ∧ (1000000 ≤ ns → ns < 1000000000 →
          format_time ns = fmt2 (ns / 1000000) ++ " ms")
      ∧ (1000000000 ≤ ns → format_time ns = fmt2 (ns / 1000000000) ++ " s")
      ∧ format_time 999 = "999.00 ns"
      ∧ format_time 1000 = "1.00 us"
      ∧ format_time 1000000 = "1.00 ms" := by
  refine ⟨?_, ?_, ?_, ?_, format_time_999, format_time_1000,
    format_time_1000000⟩
  · intro h1
    unfold format_time
    rw [if_pos h1]
  · intro h1 h2
    unfold format_time
    rw [if_neg (not_lt.mpr h1), if_pos h2]
  · intro h1 h2
    unfold format_time
    rw [if_neg (by linarith : ¬ns < 1000), if_neg (not_lt.mpr h1),
      if_pos h2]
  · intro h1
    unfold format_time
    rw [if_neg (by linarith : ¬ns < 1000),
      if_neg (by linarith : ¬ns < 1000000), if_neg (not_lt.mpr h1)]

/-- C5 witness: the theorem instantiated at 999 nanoseconds. -/
theorem format_time_unit_selection_witness :
    (0 : ℚ) ≤ 999 ∧ format_time (999 : ℚ) = "999.00 ns" :=
  ⟨by norm_num,
    (format_time_unit_selection 999 (by norm_num)).2.2.2.2.1⟩

/-- C6 counterexample: when both parsed result sets are empty, `compare`
returns at line 48 and never writes a report, against the claim that a
header-only report is produced. -/
theorem empty_inputs_no_report :
    compare "new.json" ([] : ResultSet) ([] : ResultSet) = none := rfl

/-- C6 (amended): whenever at least one parsed result set is nonempty,
the comparator produces a report consisting of the title, a blank line,
the table header, the separator, one data row per distinct identity, and
a trailing blank line; when both sets are empty it writes no report and
only prints a notice (see the counterexample). -/
theorem report_shape (new_file : String) (old_data new_data : ResultSet)
    (h : ¬(old_data = [] ∧ new_data = [])) :
    ∃ rows : List String,
      compare new_file old_data new_data =
        some (("### Comparison: " ++ basename new_file) :: "" ::
          "| Benchmark | Old | New | Diff | Status |" ::
          "|---|---|---|---|---|" :: (rows ++ [""]))
        ∧ rows.length = (allKeys old_data new_data).length := by
  refine ⟨(sortedKeys old_data new_data).map (rowLine old_data new_data),
    ?_, ?_⟩
  · have hc : ¬((old_data.isEmpty && new_data.isEmpty) = true) := by
      simp only [Bool.and_eq_true, List.isEmpty_iff]
      exact fun hh => h hh
    unfold compare
    rw [if_neg hc]
  · rw [List.length_map, sortedKeys, sortStrs_length]

/-- C6 witness: a single-entry baseline against an empty current set
yields a report with the header block and exactly one data row. -/
theorem report_shape_witness :
    ¬([("A", some (100 : ℚ))] = ([] : ResultSet) ∧ ([] : ResultSet) = [])
      ∧ ∃ rows : List String,
          compare "new.json" [("A", some (100 : ℚ))] [] =
            some (("### Comparison: " ++ basename "new.json") :: "" ::
              "| Benchmark | Old | New | Diff | Status |" ::
              "|---|---|---|---|---|" :: (rows ++ [""]))
            ∧ rows.length = (allKeys [("A", some (100 : ℚ))] []).length :=
  ⟨by simp, report_shape "new.json" _ _ (by simp)⟩

end CompareBenchmarks

namespace DailyBenchmarkBot

/-- C7: with no marker file present, the gate decides ShouldRun and the
benchmark runner is invoked, for every current revision, every diff
outcome, and every runner exit status. -/
theorem no_marker_always_runs (cur : String) (diffRes : Option String)
    (rexit : ℕ) :
    (gateDecision none cur diffRes).1 = Decision.ShouldRun
      ∧ Event.RunnerInvoked ∈ (mainRun ⟨cur, none, diffRes, rexit⟩).events := by
  constructor
  · rfl
  · by_cases hr : rexit = 0 <;> simp [mainRun, gateDecision, hr]

/-- C7 witness: the theorem at a concrete revision with a failing diff
lookup and a successful runner. -/
theorem no_marker_always_runs_witness :
    (gateDecision none "abc" none).1 = Decision.ShouldRun
      ∧ Event.RunnerInvoked ∈ (mainRun ⟨"abc", none, none, 0⟩).events :=
  no_marker_always_runs "abc" none 0

/-- C8: when the stored marker is nonempty and differs from the current
revision and the git diff subprocess fails, `check_for_changes` swallows
the error, warns, and reports changes; the gate decides ShouldRun with
the warning flag set, the runner is invoked first, and the invocation
does not exit non-zero on account of the lookup failure: when the runner
then exits zero, the whole invocation exits zero. -/
theorem diff_failure_fails_open (lc cur : String) (rexit : ℕ)
    (h1 : lc ≠ "") (h2 : lc ≠ cur) :
    check_for_changes none = (true, true)
      ∧ gateDecision (some lc) cur none = (Decision.ShouldRun, true)
      ∧ (mainRun ⟨cur, some lc, none, rexit⟩).events.head? =
          some Event.RunnerInvoked
      ∧ (rexit = 0 → (mainRun ⟨cur, some lc, none, rexit⟩).exitCode = 0) := by
  have hg : gateDecision (some lc) cur none = (Decision.ShouldRun, true) := by
    simp [gateDecision, check_for_changes, h1, h2]
  refine ⟨rfl, hg, ?_, ?_⟩
  · by_cases hr : rexit = 0 <;> simp [mainRun, hg, hr]
  · intro hr
    simp [mainRun, hg, hr]

/-- C8 witness: marker "aaa", current revision "bbb", diff lookup failed,
runner succeeded. -/
theorem diff_failure_fails_open_witness :
    gateDecision (some "aaa") "bbb" none = (Decision.ShouldRun, true)
      ∧ (mainRun ⟨"bbb", some "aaa", none, 0⟩).exitCode = 0 :=
  ⟨(diff_failure_fails_open "aaa" "bbb" 0 (by decide) (by decide)).2.1,
    (diff_failure_fails_open "aaa" "bbb" 0 (by decide) (by decide)).2.2.2 rfl⟩

/-- C9: the marker is written only after a successful run. If the events
of an invocation contain a marker write, the runner exited zero, the
write holds the current revision and comes after the runner invocation;
on a ShouldSkip decision there are no side effects and the marker is
untouched; when the runner exits non-zero the marker is untouched and,
if the runner was invoked, the invocation exits with status 1. -/
theorem marker_written_only_after_success (env : GitEnv) :
    (∀ s, Event.MarkerWritten s ∈ (mainRun env).events →
        env.runnerExit = 0 ∧ s = env.currentCommit
          ∧ (mainRun env).events =
              [Event.RunnerInvoked, Event.MarkerWritten env.currentCommit]
          ∧ (mainRun env).markerAfter = some env.currentCommit)
      ∧ ((gateDecision env.markerFile env.currentCommit env.diffResult).1 =
            Decision.ShouldSkip →
          (mainRun env).markerAfter = env.markerFile
            ∧ (mainRun env).events = [] ∧ (mainRun env).exitCode = 0)
      ∧ (env.runnerExit ≠ 0 →
          (mainRun env).markerAfter = env.markerFile
            ∧ (Event.RunnerInvoked ∈ (mainRun env).events →
                (mainRun env).exitCode = 1)) := by
  cases hd : (gateDecision env.markerFile env.currentCommit env.diffResult).1 with
  | ShouldSkip =>
    refine ⟨?_, ?_, ?_⟩
    · intro s hs
      simp [mainRun, hd] at hs
    · intro _
      simp [mainRun, hd]
    · intro _
      simp [mainRun, hd]
  | ShouldRun =>
    by_cases hr : env.runnerExit = 0
    · refine ⟨?_, ?_, ?_⟩
      · intro s hs
        simp only [mainRun, hd, hr, if_pos] at hs ⊢
        simp at hs
        simp [hs, hr]
      · intro hskip
        exact absurd hskip (by simp)
      · intro hrne
        exact absurd hr hrne
    · refine ⟨?_, ?_, ?_⟩
      · intro s hs
        simp [mainRun, hd, hr] at hs
      · intro hskip
        exact absurd hskip (by simp)
      · intro _
        simp [mainRun, hd, hr]

/-- C9 witness: with a failing runner the marker is untouched and the
invocation exits 1; with an unchanged revision nothing happens. -/
theorem marker_written_only_after_success_witness :
    (mainRun ⟨"c1", some "c0", some "p", 3⟩).markerAfter = some "c0"
      ∧ (mainRun ⟨"c1", some "c1", some "p", 0⟩).events = [] :=
  ⟨((marker_written_only_after_success ⟨"c1", some "c0", some "p", 3⟩).2.2
      (by decide)).1,
    ((marker_written_only_after_success ⟨"c1", some "c1", some "p", 0⟩).2.1
      (by decide)).2.1⟩

end DailyBenchmarkBot
